import Mathlib

/-!
Verification of the Kubernetes dynamic-inventory plugin
(`lib/ansible/plugins/inventory/kubernetes.py`).

The plugin is embedded shallowly: the inventory sink and the display are
modelled as a trace of `Event`s, the cluster API as a record of listing
functions returning `Except` (an `error` models a raised `ApiException`),
and the outcome of the credential-loading step of `_connect` as an
`Except`-valued field of the context (the loading itself is an external
collaborator; the strategy dispatch inside `_connect` is modelled
separately by `connectAction`).  Exception propagation through the
`for` loops of `_populate` is modelled by returning, next to the emitted
events, an `Option String` carrying the raised exception message.
-/

namespace Kubernetes

/-- Value of an inventory variable as passed to `set_variable`: a string,
an integer, or Python `None`. -/
inductive Value where
  | str : String → Value
  | nat : Nat → Value
  | nil : Value
deriving DecidableEq, Repr

/-- One call made by the plugin to the inventory sink (`add_group`,
`add_child`, `add_host`, `set_variable`) or to the display
(`error`, emitted by `_fail`). -/
inductive Event where
  | addGroup : String → Event
  | addChild : String → String → Event
  | addHost : String → Event
  | setVariable : String → String → Value → Event
  | error : String → Event
deriving DecidableEq, Repr

/-- The `target_ref` of an endpoint address (`kind`, `name`). -/
structure TargetRef where
  kind : String
  name : String
deriving DecidableEq, Repr

/-- One address of an endpoint subset; `target_ref` is optional
(`if a.target_ref:` in the source treats `None` as absent). -/
structure Address where
  target_ref : Option TargetRef := none
deriving DecidableEq, Repr

/-- One subset of an endpoint object. -/
structure Subset where
  addresses : List Address := []
deriving DecidableEq, Repr

/-- One endpoint object as returned by `list_namespaced_endpoints`;
`name` is `e.metadata.name` in the source. -/
structure Endpoint where
  name : String
  subsets : List Subset := []
deriving DecidableEq, Repr

/-- One pod as returned by `list_namespaced_pod`: `name` is
`pod.metadata.name`, `containers` the names of `pod.spec.containers`
(only the name of a container is consumed), `labels` the ordered
key/value pairs of `pod.metadata.labels`. -/
structure Pod where
  name : String
  containers : List String := []
  labels : List (String × String) := []
deriving DecidableEq, Repr

/-- The connected cluster API client (`core_v1_api.CoreV1Api`): listing
calls for a namespace, each able to raise (`Except.error` carries the
message of the raised `ApiException`/`Exception`). -/
structure Api where
  list_namespaced_pod : String → Except String (List Pod)
  list_namespaced_endpoints : String → Except String (List Endpoint)

/-- One context dictionary of the configuration file.  The fields mirror
the keys read by the source (`username`, `server`, `port`, `token`,
`local_kube_config`, `kubernetes_config_file`, `namespaces`); a missing
key is `none`.  `connectResult` models the outcome of the external
credential-loading/connection attempt performed inside `_connect`
(success yields the client, failure the exception message caught there). -/
structure Context where
  username : Option String := none
  server : Option String := none
  port : Option Nat := none
  token : Option String := none
  local_kube_config : Bool := false
  kubernetes_config_file : Option String := none
  namespaces : List String := []
  connectResult : Except String Api

/-- The configuration object loaded from the file: an optional `plugin`
name and an optional `contexts` list (`none` models a missing key, as
`config_data.get` returns `None`). -/
structure ConfigData where
  plugin : Option String := none
  contexts : Option (List Context) := none

/-- Python substring containment (`needle in hay`) on explicit
character lists. -/
def strInAux (needle : List Char) : List Char → Bool
  | [] => needle.isPrefixOf []
  | c :: rest => needle.isPrefixOf (c :: rest) || strInAux needle rest

/-- Python substring containment on strings: `strIn n h` is the Python
expression `n in h`. -/
def strIn (needle hay : String) : Bool :=
  strInAux needle.data hay.data

/-- Python `str.format` rendering of an optional string
(`None` renders as the string `"None"`). -/
def pyFormatOptStr : Option String → String
  | none => "None"
  | some s => s

/-- Python `str.format` rendering of an optional integer. -/
def pyFormatOptNat : Option Nat → String
  | none => "None"
  | some n => toString n

/-- The `cluster` sub-dictionary of the synthesized credentials bundle. -/
structure ClusterEntry where
  insecure_skip_tls_verify : String
  server : String
deriving DecidableEq, Repr

/-- One element of the `clusters` list of the synthesized bundle. -/
structure NamedCluster where
  cluster : ClusterEntry
  name : String
deriving DecidableEq, Repr

/-- The `context` sub-dictionary of the synthesized bundle. -/
structure ContextEntry where
  cluster : String
  «namespace» : String
  user : String
deriving DecidableEq, Repr

/-- One element of the `contexts` list of the synthesized bundle. -/
structure NamedContextEntry where
  context : ContextEntry
  name : String
deriving DecidableEq, Repr

/-- The `user` sub-dictionary of the synthesized bundle (bearer token). -/
structure UserEntry where
  token : Option String
deriving DecidableEq, Repr

/-- One element of the `users` list of the synthesized bundle. -/
structure NamedUser where
  name : String
  user : UserEntry
deriving DecidableEq, Repr

/-- The in-memory credentials dictionary built by
`_generate_kubernetes_config`. -/
structure KubeConfigDict where
  current_context : String
  clusters : List NamedCluster
  contexts : List NamedContextEntry
  users : List NamedUser
deriving DecidableEq, Repr

/-- Embedding of `InventoryModule._generate_kubernetes_config`: returns the
credentials dictionary and the active context name; `none` models the
`IndexError` raised by `context.get("namespaces")[0]` on an empty
namespace list. -/
def _generate_kubernetes_config (context : Context) : Option (KubeConfigDict × String) :=
  match context.namespaces with
  | [] => none
  | ns0 :: _ =>
    let username := pyFormatOptStr context.username
    let server := pyFormatOptStr context.server ++ ":" ++ pyFormatOptNat context.port
    let current_context := ns0 ++ "/" ++ server ++ "/" ++ username
    let users_name := username ++ "/" ++ server
    some ({ current_context := current_context,
            clusters := [{ cluster := { insecure_skip_tls_verify := "true",
                                        server := "https://" ++ server },
                           name := server }],
            contexts := [{ context := { cluster := server,
                                        «namespace» := ns0,
                                        user := users_name },
                           name := current_context }],
            users := [{ name := users_name,
                        user := { token := context.token } }] },
          current_context)

/-- Which credential-resolution strategy the `if`/`elif`/`else` chain of
`InventoryModule._connect` selects for a context. -/
inductive ConnectAction where
  | loadLocalDefault : ConnectAction
  | loadFromFile : String → ConnectAction
  | loadSynthesized : KubeConfigDict → String → ConnectAction
  | raiseIndexError : ConnectAction
deriving Repr

/-- Python truthiness of an optional string (`None` and `""` are falsy). -/
def truthyStr : Option String → Bool
  | none => false
  | some s => !(s == "")

/-- Embedding of the strategy dispatch of `InventoryModule._connect`:
`local_kube_config` wins, then a truthy `kubernetes_config_file`,
otherwise the synthesized in-memory bundle. -/
def connectAction (context : Context) : ConnectAction :=
  if context.local_kube_config then ConnectAction.loadLocalDefault
  else if truthyStr context.kubernetes_config_file then
    ConnectAction.loadFromFile (context.kubernetes_config_file.getD "")
  else
    match _generate_kubernetes_config context with
    | none => ConnectAction.raiseIndexError
    | some (cfg, active) => ConnectAction.loadSynthesized cfg active

/-- Rendering of `context.get(key, None)` as a variable value: Python
`None` for a missing key, the string itself otherwise. -/
def optValue : Option String → Value
  | none => Value.nil
  | some s => Value.str s

/-- Embedding of `InventoryModule._hostvars` together with the preceding
assignment of `self.inventory_hostname`: the `add_host` call and the nine
`set_variable` calls, in source order. -/
def _hostvars (inventory_hostname ns pod_name container_name : String)
    (context : Context) (plugin : String) : List Event :=
  [ Event.addHost inventory_hostname,
    Event.setVariable inventory_hostname "ansible_host" (Value.str pod_name),
    Event.setVariable inventory_hostname "ansible_connection" (Value.str plugin),
    Event.setVariable inventory_hostname "ansible_user" (optValue context.username),
    Event.setVariable inventory_hostname "ansible_password" (optValue context.token),
    Event.setVariable inventory_hostname "ansible_kubernetes_port"
      (Value.nat (context.port.getD 8443)),
    Event.setVariable inventory_hostname "ansible_kubernetes_cluster"
      (optValue context.server),
    Event.setVariable inventory_hostname "ansible_kube_namespace" (Value.str ns),
    Event.setVariable inventory_hostname "ansible_kube_config_file"
      (optValue context.kubernetes_config_file),
    Event.setVariable inventory_hostname "ansible_kube_container"
      (Value.str container_name) ]

/-- Embedding of `InventoryModule._groupadd`: `add_group` immediately
followed by `add_child` on the same group. -/
def _groupadd (group_name child_name : String) : List Event :=
  [Event.addGroup group_name, Event.addChild group_name child_name]

/-- The body of the `for container in pod.spec.containers` loop of
`InventoryModule._populate`: compute the inventory hostname, emit the
host with its variables, then the namespace and pod group memberships. -/
def containerEvents (plugin : String) (context : Context) (ns pod_name container : String) :
    List Event :=
  let inventory_hostname := container ++ "_" ++ pod_name
  _hostvars inventory_hostname ns pod_name container context plugin
    ++ _groupadd ns inventory_hostname
    ++ _groupadd pod_name inventory_hostname

/-- The body of the `for pod in pods.items` loop of
`InventoryModule._populate`: pods whose name contains `"-build"` are
skipped entirely; otherwise one host (with variables and the namespace
and pod group memberships) per container, then one label group per
label pair with the pod name as child. -/
def podEvents (plugin : String) (context : Context) (ns : String) (pod : Pod) : List Event :=
  if strIn "-build" pod.name then []
  else
    pod.containers.flatMap (containerEvents plugin context ns pod.name)
    ++ pod.labels.flatMap (fun kv => _groupadd (kv.1 ++ "_" ++ kv.2) pod.name)

/-- The host keys a pod contributes: none for a `-build` pod, otherwise
one key `container_name ++ "_" ++ pod_name` per container in order. -/
def hostKeys (pod : Pod) : List String :=
  if strIn "-build" pod.name then []
  else pod.containers.map (fun c => c ++ "_" ++ pod.name)

/-- Embedding of `InventoryModule._kube_service_group`: list the endpoints
of the namespace, create one group per endpoint, and add as children the
target names of addresses whose `target_ref` is present and whose kind
contains `"Pod"`.  A raised listing exception is caught inside this
method and reported (it does not propagate). -/
def _kube_service_group (api : Api) (ns : String) : List Event :=
  match api.list_namespaced_endpoints ns with
  | Except.error e => [Event.error e]
  | Except.ok endpoints =>
      endpoints.flatMap (fun e =>
        Event.addGroup e.name ::
          e.subsets.flatMap (fun s =>
            s.addresses.flatMap (fun addr =>
              match addr.target_ref with
              | none => []
              | some tr =>
                if strIn "Pod" tr.kind then [Event.addChild e.name tr.name] else [])))

/-- Message of the `AttributeError` raised when `self.api` is read before
any successful `_connect`. -/
def attributeErrorMsg : String :=
  "AttributeError: InventoryModule instance has no attribute api"

/-- Message of the `TypeError` raised by iterating over `None` when the
configuration has no `contexts` key. -/
def typeErrorNoneMsg : String :=
  "TypeError: NoneType object is not iterable"

/-- The `for namespace in ...namespaces` loop of
`InventoryModule._populate`.  `api` is the current value of `self.api`
(`none` when the attribute was never assigned).  Returns the events
emitted and, when a call raised, the exception message: a raised
exception aborts the loop (it is only caught outside the whole context
loop). -/
def loopNamespaces (api : Option Api) (plugin : String) (context : Context) :
    List String → List Event × Option String
  | [] => ([], none)
  | ns :: rest =>
    match api with
    | none => ([], some attributeErrorMsg)
    | some a =>
      match a.list_namespaced_pod ns with
      | Except.error e => ([], some e)
      | Except.ok pods =>
        let evs := pods.flatMap (podEvents plugin context ns) ++ _kube_service_group a ns
        let r := loopNamespaces (some a) plugin context rest
        (evs ++ r.1, r.2)

/-- The value of `self.api` after `_connect` ran for a context:
updated on success, left at its previous value on a caught connection
failure. -/
def connectApi (api : Option Api) (context : Context) : Option Api :=
  match context.connectResult with
  | Except.ok a => some a
  | Except.error _ => api

/-- The events `_connect` emits for a context: nothing on success, one
reported error on a caught connection failure. -/
def connectEvents (context : Context) : List Event :=
  match context.connectResult with
  | Except.ok _ => []
  | Except.error e => [Event.error e]

/-- The `for context in ...contexts` loop of
`InventoryModule._populate`.  `_connect` catches its own exceptions, so a
connection failure only reports an error and leaves `self.api` at its
previous value; an exception raised inside the namespace loop aborts the
remaining contexts (the surrounding `try` is outside the loop). -/
def loopContexts (api : Option Api) (plugin : String) :
    List Context → List Event × Option String
  | [] => ([], none)
  | context :: rest =>
    let r := loopNamespaces (connectApi api context) plugin context context.namespaces
    match r.2 with
    | some e => (connectEvents context ++ r.1, some e)
    | none =>
      let r2 := loopContexts (connectApi api context) plugin rest
      (connectEvents context ++ r.1 ++ r2.1, r2.2)

/-- The handler surrounding the loops of `_populate`: a raised exception
that reached it is reported (via `_fail`) after the events already
emitted; a completed run keeps its events as they are. -/
def populateResult (r : List Event × Option String) : List Event :=
  match r.2 with
  | none => r.1
  | some e => r.1 ++ [Event.error e]

/-- Embedding of `InventoryModule._populate`: read the plugin name with
default `"kubernetes"`, iterate the contexts, and report (via `_fail`)
any exception that reaches the surrounding handler — iterating a missing
`contexts` key raises `TypeError` there before any context is attempted. -/
def _populate (config_data : ConfigData) : List Event :=
  match config_data.contexts with
  | none => [Event.error typeErrorNoneMsg]
  | some contexts =>
    populateResult (loopContexts none (config_data.plugin.getD "kubernetes") contexts)

/-- Embedding of `InventoryModule.parse`: a configuration file that fails
to load raises `AnsibleParserError` (the `Except.error` outcome, the only
fatal path); otherwise `_populate` runs on the loaded data and the run
completes with its event trace. -/
def parse (loadResult : Except String ConfigData) : Except String (List Event) :=
  match loadResult with
  | Except.error e => Except.error e
  | Except.ok config_data => Except.ok (_populate config_data)

/-- The host keys of the `add_host` calls of a trace, in order. -/
def hostsOf (evs : List Event) : List String :=
  evs.filterMap (fun e => match e with | Event.addHost h => some h | _ => none)

/-- The variable assignments a trace makes on host `h`, in order. -/
def varsOf (h : String) (evs : List Event) : List (String × Value) :=
  evs.filterMap (fun e => match e with
    | Event.setVariable h2 k v => if h2 = h then some (k, v) else none
    | _ => none)

/-- The pod names an endpoint object contributes as service-group
children, following the words of the specification: every address across
every subset with a `target_ref` of Pod kind. -/
def podTargets (e : Endpoint) : List String :=
  e.subsets.flatMap (fun s =>
    s.addresses.filterMap (fun addr =>
      match addr.target_ref with
      | none => none
      | some tr => if strIn "Pod" tr.kind then some tr.name else none))

/-- Group names already created after processing a trace, newest first,
starting from `created`. -/
def accGroups (created : List String) : List Event → List String
  | [] => created
  | Event.addGroup g :: rest => accGroups (g :: created) rest
  | _ :: rest => accGroups created rest

/-- Checks that every `addChild g c` of the trace is preceded by an
`addGroup g` (or `g` was already in `created`). -/
def wellOrderedFrom (created : List String) : List Event → Bool
  | [] => true
  | Event.addGroup g :: rest => wellOrderedFrom (g :: created) rest
  | Event.addChild g _ :: rest => created.contains g && wellOrderedFrom created rest
  | _ :: rest => wellOrderedFrom created rest

/-- A trace never adds a child to a group it has not first created. -/
def wellOrdered (evs : List Event) : Bool :=
  wellOrderedFrom [] evs

/-- A context whose connection fields are irrelevant to the property at
hand (the connection attempt is never consulted by per-pod processing). -/
def someContext : Context :=
  { connectResult := Except.error "unused" }

/-- A cluster whose only pod in any namespace is the build pod
`x-build`, labelled `app: web`, with no containers and no endpoints. -/
def apiBuildPod : Api :=
  { list_namespaced_pod := fun _ =>
      Except.ok [{ name := "x-build", containers := [], labels := [("app", "web")] }],
    list_namespaced_endpoints := fun _ => Except.ok [] }

/-- A one-context configuration over `apiBuildPod`. -/
def cfgBuildPod : ConfigData :=
  { plugin := none,
    contexts := some [{ namespaces := ["ns1"], connectResult := Except.ok apiBuildPod }] }

/-- A cluster with a single endpoint `svc` whose one address has a
`target_ref` of kind `PodTemplate` (which is not `Pod` but contains it). -/
def apiPodTemplate : Api :=
  { list_namespaced_pod := fun _ => Except.ok [],
    list_namespaced_endpoints := fun _ =>
      Except.ok [{ name := "svc",
                   subsets := [{ addresses :=
                     [{ target_ref := some { kind := "PodTemplate", name := "pt-1" } }] }] }] }

/-- A healthy cluster holding, in any namespace, one pod `web-2` with the
single container `app` and no endpoints. -/
def apiSecond : Api :=
  { list_namespaced_pod := fun _ =>
      Except.ok [{ name := "web-2", containers := ["app"], labels := [] }],
    list_namespaced_endpoints := fun _ => Except.ok [] }

/-- A context whose connection attempt fails. -/
def ctxFailing : Context :=
  { namespaces := ["ns1"], connectResult := Except.error "connection refused" }

/-- A context that connects to `apiSecond`. -/
def ctxHealthy : Context :=
  { namespaces := ["ns2"], connectResult := Except.ok apiSecond }

/-- A two-context configuration whose first context fails to connect. -/
def cfgTwoContexts : ConfigData :=
  { plugin := none, contexts := some [ctxFailing, ctxHealthy] }

/-- A one-context configuration over the healthy cluster alone. -/
def cfgOneHealthy : ConfigData :=
  { plugin := none, contexts := some [ctxHealthy] }

/-- Two pods with distinct names whose (container, pod) pairs
nevertheless concatenate to the same host key `a_b_c`, thanks to an
underscore inside a pod name. -/
def podsColliding : List Pod :=
  [{ name := "b_c", containers := ["a"], labels := [] },
   { name := "c", containers := ["a_b"], labels := [] }]

/-- A context using inline credentials (no local kubeconfig, no
credentials file), for exercising the synthesized-bundle strategy. -/
def ctxInline : Context :=
  { username := some "admin", server := some "k8s.example.com", port := some 6443,
    token := some "sekrit", local_kube_config := false, kubernetes_config_file := none,
    namespaces := ["ns1"], connectResult := Except.error "unused" }

end Kubernetes

namespace Kubernetes

/-- C4: a pod whose name contains the substring `-build` is skipped
entirely by the pod loop of `_populate`: it contributes no events at all,
in particular no `add_host` call and no host variables for any of its
containers. -/
theorem C4_build_pods_excluded (plugin : String) (context : Context) (ns : String)
    (pod : Pod) (h : strIn "-build" pod.name = true) :
    podEvents plugin context ns pod = [] := by
  simp [podEvents, h]

/-- Witness for C4 at the pod `web-build-1`. -/
theorem C4_witness :
    strIn "-build" "web-build-1" = true ∧
    podEvents "kubernetes" someContext "ns1"
      { name := "web-build-1", containers := ["app"], labels := [("app", "web")] } = [] :=
  ⟨by decide, C4_build_pods_excluded "kubernetes" someContext "ns1"
    { name := "web-build-1", containers := ["app"], labels := [("app", "web")] } (by decide)⟩

/-- C5 counterexample: the pod `x-build` is listed (it is in the pod
listing of the run) and carries the label `app: web`, yet the run creates
no group `app_web` and no child edge `app_web → x-build`, because the
`-build` name filter skips the label loop as well. -/
theorem C5_counterexample :
    apiBuildPod.list_namespaced_pod "ns1" =
      Except.ok [{ name := "x-build", containers := [], labels := [("app", "web")] }] ∧
    Event.addGroup "app_web" ∉ _populate cfgBuildPod ∧
    Event.addChild "app_web" "x-build" ∉ _populate cfgBuildPod := by
  refine ⟨rfl, ?_, ?_⟩ <;> decide

/-- C5 amended: for every label pair `(k, v)` of a listed pod whose name
does not contain `-build`, the pod loop creates the group `k_v` with the
pod name (not any host key) as child; this holds for any container list,
in particular for a zero-container pod. -/
theorem C5_amended (plugin : String) (context : Context) (ns : String) (pod : Pod)
    (k v : String) (hb : strIn "-build" pod.name = false) (hkv : (k, v) ∈ pod.labels) :
    Event.addGroup (k ++ "_" ++ v) ∈ podEvents plugin context ns pod ∧
    Event.addChild (k ++ "_" ++ v) pod.name ∈ podEvents plugin context ns pod := by
  have hmem : ∀ e ∈ _groupadd (k ++ "_" ++ v) pod.name,
      e ∈ podEvents plugin context ns pod := by
    intro e he
    simp only [podEvents, hb, if_neg, Bool.false_eq_true, not_false_iff]
    refine List.mem_append_right _ ?_
    exact List.mem_flatMap.mpr ⟨(k, v), hkv, he⟩
  exact ⟨hmem _ (by simp [_groupadd]), hmem _ (by simp [_groupadd])⟩

/-- Witness for C5 amended at a zero-container pod `web-1` with label
`app: web`. -/
theorem C5_witness :
    Event.addGroup "app_web" ∈
      podEvents "kubernetes" someContext "ns1"
        { name := "web-1", containers := [], labels := [("app", "web")] } ∧
    Event.addChild "app_web" "web-1" ∈
      podEvents "kubernetes" someContext "ns1"
        { name := "web-1", containers := [], labels := [("app", "web")] } :=
  C5_amended "kubernetes" someContext "ns1"
    { name := "web-1", containers := [], labels := [("app", "web")] }
    "app" "web" (by decide) (by decide)

/-- C6 counterexample: an address whose `target_ref.kind` is
`PodTemplate` — not equal to `Pod`, though containing it — still has its
target added as a child of the service group, because the source tests
substring containment (`"Pod" in a.target_ref.kind`), not equality. -/
theorem C6_counterexample :
    ("PodTemplate" ≠ "Pod") ∧
    _kube_service_group apiPodTemplate "ns1" =
      [Event.addGroup "svc", Event.addChild "svc" "pt-1"] := by
  refine ⟨by decide, ?_⟩
  decide

/-- Helper for C6: the address loop emits exactly one `addChild` per
address with a present `target_ref` whose kind contains `"Pod"`. -/
theorem flatMap_addresses_eq (g : String) (addrs : List Address) :
    addrs.flatMap (fun addr =>
        match addr.target_ref with
        | none => []
        | some tr => if strIn "Pod" tr.kind then [Event.addChild g tr.name] else []) =
      (addrs.filterMap (fun addr =>
        match addr.target_ref with
        | none => none
        | some tr => if strIn "Pod" tr.kind then some tr.name else none)).map
          (Event.addChild g) := by
  induction addrs with
  | nil => rfl
  | cons a rest ih =>
    cases h : a.target_ref with
    | none => simp [h, ih]
    | some tr =>
      by_cases hk : strIn "Pod" tr.kind = true
      · simp [h, hk, ih]
      · simp [h, hk, ih]

/-- C6 amended: when the endpoint listing succeeds, the service grouper
emits, for each endpoint object in order, one group creation named after
the endpoint followed by one child addition per address (across every
subset) whose `target_ref` is present and whose kind CONTAINS the
substring `"Pod"`; addresses lacking a `target_ref` or whose kind does
not contain `"Pod"` contribute nothing and raise no error. -/
theorem C6_amended (api : Api) (ns : String) (endpoints : List Endpoint)
    (h : api.list_namespaced_endpoints ns = Except.ok endpoints) :
    _kube_service_group api ns =
      endpoints.flatMap (fun e =>
        Event.addGroup e.name :: (podTargets e).map (Event.addChild e.name)) := by
  unfold _kube_service_group
  rw [h]
  refine List.flatMap_congr ?_
  intro e _
  unfold podTargets
  congr 1
  rw [List.map_flatMap]
  refine List.flatMap_congr ?_
  intro s _
  exact flatMap_addresses_eq e.name s.addresses

/-- Witness for C6 amended at `apiPodTemplate`. -/
theorem C6_witness :
    _kube_service_group apiPodTemplate "ns1" =
      ([{ name := "svc",
          subsets := [{ addresses :=
            [{ target_ref := some { kind := "PodTemplate", name := "pt-1" } }] }] }] :
        List Endpoint).flatMap (fun e =>
          Event.addGroup e.name :: (podTargets e).map (Event.addChild e.name)) :=
  C6_amended apiPodTemplate "ns1" _ rfl

/-- C1 counterexample: the second context alone would fully populate its
host `app_web-2`, but in the two-context run whose first context fails to
connect, the run stops at the AttributeError raised by the first
`self.api` access — the second context is never processed and populates
nothing. -/
theorem C1_counterexample :
    ctxFailing.connectResult = Except.error "connection refused" ∧
    Event.addHost "app_web-2" ∈ _populate { plugin := none, contexts := some [ctxHealthy] } ∧
    Event.addHost "app_web-2" ∉ _populate cfgTwoContexts ∧
    _populate cfgTwoContexts =
      [Event.error "connection refused", Event.error attributeErrorMsg] := by
  refine ⟨rfl, by decide, by decide, by decide⟩

/-- C1 amended: a connection failure is reported and swallowed inside
`_connect`, but when the first context of the run fails to connect and
has at least one namespace, the first use of the never-assigned client
raises an AttributeError that is caught only by the handler surrounding
the whole context loop: the error is reported and the run ends, so no
later context populates anything.  Events emitted before the raise (here
only the two error reports) are retained — the inventory is never rolled
back. -/
theorem C1_first_context_failure_aborts_run
    (config : ConfigData) (c1 : Context) (rest : List Context) (e ns0 : String)
    (nss : List String)
    (hc : config.contexts = some (c1 :: rest))
    (hconn : c1.connectResult = Except.error e)
    (hns : c1.namespaces = ns0 :: nss) :
    _populate config = [Event.error e, Event.error attributeErrorMsg] := by
  simp [_populate, hc, loopContexts, connectApi, connectEvents, hconn, hns, loopNamespaces,
    populateResult]

/-- Witness for C1 amended at the two-context configuration. -/
theorem C1_witness :
    _populate cfgTwoContexts =
      [Event.error "connection refused", Event.error attributeErrorMsg] :=
  C1_first_context_failure_aborts_run cfgTwoContexts ctxFailing [ctxHealthy]
    "connection refused" "ns1" [] rfl rfl rfl

/-- C2 counterexample: a loadable configuration without a `contexts` key
does not abort the run with a parse-time error — `parse` completes
normally (`Except.ok`), merely reporting the TypeError that the handler
inside `_populate` caught. -/
theorem C2_counterexample :
    parse (Except.ok { plugin := none, contexts := none }) =
      Except.ok [Event.error typeErrorNoneMsg] := rfl

/-- C2 amended: the one fatal path of the program is a configuration file
that fails to load, which `parse` re-raises as a parser error; a loadable
configuration missing the `contexts` key is instead reported as a single
non-fatal runtime error by the handler of `_populate`, before any context
is attempted; no other input produces a fatal outcome. -/
theorem C2_only_fatal_path_is_load_failure :
    (∀ e, parse (Except.error e) = Except.error e) ∧
    (∀ config : ConfigData, config.contexts = none →
        _populate config = [Event.error typeErrorNoneMsg]) ∧
    (∀ (r : Except String ConfigData) (e : String),
        parse r = Except.error e → r = Except.error e) := by
  refine ⟨fun e => rfl, ?_, ?_⟩
  · intro config h
    simp [_populate, h]
  · intro r e h
    cases r with
    | error e2 => simpa [parse] using h
    | ok config => simp [parse] at h

/-- Witness for C2 amended at a failed load and at a contexts-free
configuration. -/
theorem C2_witness :
    parse (Except.error "failed to load") = Except.error "failed to load" ∧
    _populate { plugin := none, contexts := none } = [Event.error typeErrorNoneMsg] :=
  ⟨C2_only_fatal_path_is_load_failure.1 "failed to load",
   C2_only_fatal_path_is_load_failure.2.1 { plugin := none, contexts := none } rfl⟩

/-- C9: the strategy dispatch of `_connect` picks the first applicable
strategy in order — local default credentials when `local_kube_config` is
truthy, then the explicit credentials file when set — and otherwise
synthesizes the in-memory bundle: a cluster entry named
`server:port` with TLS verification disabled, a context entry binding
that cluster with the first namespace as default namespace and the
synthesized user `username/server:port`, and a user entry carrying the
bearer token. -/
theorem C9_resolution_order (context : Context) (ns0 : String) (rest : List String)
    (hns : context.namespaces = ns0 :: rest) :
    (context.local_kube_config = true →
       connectAction context = ConnectAction.loadLocalDefault) ∧
    (context.local_kube_config = false → truthyStr context.kubernetes_config_file = true →
       connectAction context =
         ConnectAction.loadFromFile (context.kubernetes_config_file.getD "")) ∧
    (context.local_kube_config = false → truthyStr context.kubernetes_config_file = false →
       connectAction context =
         ConnectAction.loadSynthesized
           { current_context := ns0 ++ "/" ++
               (pyFormatOptStr context.server ++ ":" ++ pyFormatOptNat context.port) ++
               "/" ++ pyFormatOptStr context.username,
             clusters :=
               [{ cluster :=
                    { insecure_skip_tls_verify := "true",
                      server := "https://" ++
                        (pyFormatOptStr context.server ++ ":" ++
                          pyFormatOptNat context.port) },
                  name := pyFormatOptStr context.server ++ ":" ++
                    pyFormatOptNat context.port }],
             contexts :=
               [{ context :=
                    { cluster := pyFormatOptStr context.server ++ ":" ++
                        pyFormatOptNat context.port,
                      «namespace» := ns0,
                      user := pyFormatOptStr context.username ++ "/" ++
                        (pyFormatOptStr context.server ++ ":" ++
                          pyFormatOptNat context.port) },
                  name := ns0 ++ "/" ++
                    (pyFormatOptStr context.server ++ ":" ++
                      pyFormatOptNat context.port) ++
                    "/" ++ pyFormatOptStr context.username }],
             users :=
               [{ name := pyFormatOptStr context.username ++ "/" ++
                    (pyFormatOptStr context.server ++ ":" ++
                      pyFormatOptNat context.port),
                  user := { token := context.token } }] }
           (ns0 ++ "/" ++
             (pyFormatOptStr context.server ++ ":" ++ pyFormatOptNat context.port) ++
             "/" ++ pyFormatOptStr context.username)) := by
  refine ⟨?_, ?_, ?_⟩
  · intro h
    simp [connectAction, h]
  · intro h1 h2
    simp [connectAction, h1, h2]
  · intro h1 h2
    simp [connectAction, h1, h2, _generate_kubernetes_config, hns]

/-- Splitting at the last separator: if the parts after the marker are
marker-free, the decomposition `u ++ marker :: x` is unique. -/
theorem lastSep_inj :
    ∀ (u v x y : List Char), ('_' ∉ x) → ('_' ∉ y) →
      u ++ '_' :: x = v ++ '_' :: y → u = v ∧ x = y := by
  intro u
  induction u with
  | nil =>
    intro v x y hx hy h
    cases v with
    | nil =>
      simp only [List.nil_append] at h
      injection h with h1 h2
      exact ⟨rfl, h2⟩
    | cons b v2 =>
      simp only [List.nil_append, List.cons_append] at h
      injection h with h1 h2
      exfalso
      apply hx
      rw [h2]
      exact List.mem_append_right _ (List.mem_cons_self _ _)
  | cons a u2 ih =>
    intro v x y hx hy h
    cases v with
    | nil =>
      simp only [List.cons_append, List.nil_append] at h
      injection h with h1 h2
      exfalso
      apply hy
      rw [← h2]
      exact List.mem_append_right _ (List.mem_cons_self _ _)
    | cons b v2 =>
      simp only [List.cons_append] at h
      injection h with h1 h2
      obtain ⟨huv, hxy⟩ := ih v2 x y hx hy h2
      exact ⟨by rw [h1, huv], hxy⟩

/-- The characters of a host key are the container characters, an
underscore, and the pod characters. -/
theorem key_data (c p : String) : (c ++ "_" ++ p).data = c.data ++ '_' :: p.data := by
  rw [String.data_append, String.data_append, List.append_assoc]
  rfl

/-- Host keys built from underscore-free pod names determine both the
container name and the pod name. -/
theorem hostKey_inj (c1 p1 c2 p2 : String) (h1 : '_' ∉ p1.data) (h2 : '_' ∉ p2.data)
    (h : c1 ++ "_" ++ p1 = c2 ++ "_" ++ p2) : c1 = c2 ∧ p1 = p2 := by
  have hd := congrArg String.data h
  rw [key_data, key_data] at hd
  obtain ⟨hu, hx⟩ := lastSep_inj c1.data c2.data p1.data p2.data h1 h2 hd
  exact ⟨String.ext hu, String.ext hx⟩

/-- Within one pod, distinct container names give distinct host keys. -/
theorem hostKey_cancel (c1 c2 p : String) (h : c1 ++ "_" ++ p = c2 ++ "_" ++ p) :
    c1 = c2 := by
  have hd := congrArg String.data h
  rw [key_data, key_data] at hd
  exact String.ext (List.append_cancel_right hd)

/-- A list maps to singletons exactly as it maps to elements. -/
theorem flatMap_singleton_eq_map {α : Type u} {β : Type v} (l : List α) (f : α → β) :
    (l.flatMap fun x => [f x]) = l.map f := by
  induction l with
  | nil => rfl
  | cons x xs ih => simp [ih]

/-- Host extraction distributes over trace concatenation. -/
theorem hostsOf_append (a b : List Event) : hostsOf (a ++ b) = hostsOf a ++ hostsOf b :=
  List.filterMap_append a b _

/-- Host extraction distributes over a flatMap of traces. -/
theorem hostsOf_flatMap {α : Type u} (l : List α) (f : α → List Event) :
    hostsOf (l.flatMap f) = l.flatMap fun x => hostsOf (f x) :=
  List.filterMap_flatMap l f _

/-- One container block emits exactly its own host key. -/
theorem hostsOf_containerEvents (plugin : String) (context : Context)
    (ns pname c : String) :
    hostsOf (containerEvents plugin context ns pname c) = [c ++ "_" ++ pname] := by
  simp [hostsOf, containerEvents, _hostvars, _groupadd]

/-- Group insertion emits no host. -/
theorem hostsOf_groupadd (g c : String) : hostsOf (_groupadd g c) = [] := by
  simp [hostsOf, _groupadd]

/-- The hosts a pod emits are exactly its host keys. -/
theorem hostsOf_podEvents (plugin : String) (context : Context) (ns : String) (pod : Pod) :
    hostsOf (podEvents plugin context ns pod) = hostKeys pod := by
  unfold podEvents hostKeys
  by_cases hb : strIn "-build" pod.name
  · simp [hb, hostsOf]
  · simp only [hb, Bool.false_eq_true, if_false]
    rw [hostsOf_append, hostsOf_flatMap, hostsOf_flatMap]
    have h1 : (pod.containers.flatMap fun c =>
        hostsOf (containerEvents plugin context ns pod.name c)) =
        pod.containers.map fun c => c ++ "_" ++ pod.name := by
      refine Eq.trans (List.flatMap_congr ?_) (flatMap_singleton_eq_map _ _)
      intro c _
      exact hostsOf_containerEvents plugin context ns pod.name c
    have h2 : (pod.labels.flatMap fun kv =>
        hostsOf (_groupadd (kv.1 ++ "_" ++ kv.2) pod.name)) = [] := by
      refine List.flatMap_eq_nil_iff.mpr ?_
      intro kv _
      exact hostsOf_groupadd _ _
    rw [h1, h2, List.append_nil]

/-- C3 counterexample: two pods with cluster-unique names (`b_c` and
`c`) still collide on the host key `a_b_c`, because an underscore inside
a pod name lets distinct (container, pod) pairs concatenate to the same
key — the claimed uniqueness fails as stated. -/
theorem C3_counterexample :
    (podsColliding.map Pod.name).Nodup ∧
    hostsOf (podsColliding.flatMap (podEvents "kubernetes" someContext "ns1")) =
      ["a_b_c", "a_b_c"] ∧
    ¬ (hostsOf (podsColliding.flatMap (podEvents "kubernetes" someContext "ns1"))).Nodup := by
  refine ⟨by decide, by decide, by decide⟩

/-- C3 amended: each non-build pod emits one host per entry of its
container list, in container-list order, keyed
`container_name ++ "_" ++ pod_name`; and the keys of a whole listing are
unique provided pod names are cluster-unique AND underscore-free and
container names are unique within each pod (container names may still
repeat across pods). -/
theorem C3_host_keys (plugin : String) (context : Context) (ns : String) :
    (∀ pod : Pod, strIn "-build" pod.name = false →
       hostsOf (podEvents plugin context ns pod) =
         pod.containers.map fun c => c ++ "_" ++ pod.name) ∧
    (∀ pods : List Pod,
       (pods.map Pod.name).Nodup →
       (∀ pod ∈ pods, '_' ∉ pod.name.data) →
       (∀ pod ∈ pods, pod.containers.Nodup) →
       (hostsOf (pods.flatMap (podEvents plugin context ns))).Nodup) := by
  constructor
  · intro pod hb
    rw [hostsOf_podEvents]
    simp [hostKeys, hb]
  · intro pods hnames hud hcnd
    rw [hostsOf_flatMap]
    have hkeys : (pods.flatMap fun pod => hostsOf (podEvents plugin context ns pod)) =
        pods.flatMap hostKeys := by
      refine List.flatMap_congr ?_
      intro pod _
      exact hostsOf_podEvents plugin context ns pod
    rw [hkeys, List.nodup_flatMap]
    constructor
    · intro pod hp
      unfold hostKeys
      by_cases hb : strIn "-build" pod.name
      · simp [hb]
      · simp only [hb, Bool.false_eq_true, if_false]
        refine List.Nodup.map ?_ (hcnd pod hp)
        intro c1 c2 hcc
        exact hostKey_cancel c1 c2 pod.name hcc
    · have hp : pods.Pairwise fun p q => p.name ≠ q.name := List.pairwise_map.mp hnames
      refine hp.imp_of_mem ?_
      intro p q hpmem hqmem hne
      intro k hkp hkq
      unfold hostKeys at hkp hkq
      by_cases hbp : strIn "-build" p.name
      · simp [hbp] at hkp
      · by_cases hbq : strIn "-build" q.name
        · simp [hbq] at hkq
        · simp only [hbp, hbq, Bool.false_eq_true, if_false, List.mem_map] at hkp hkq
          obtain ⟨c1, _, hk1⟩ := hkp
          obtain ⟨c2, _, hk2⟩ := hkq
          have hkk : c1 ++ "_" ++ p.name = c2 ++ "_" ++ q.name := by rw [hk1, hk2]
          obtain ⟨_, hpq⟩ :=
            hostKey_inj c1 p.name c2 q.name (hud p hpmem) (hud q hqmem) hkk
          exact hne hpq

/-- Witness for C3 amended: a two-pod listing with repeated container
names across pods still has pairwise-distinct host keys. -/
theorem C3_witness :
    hostsOf (podEvents "kubernetes" someContext "ns1"
        { name := "web-1", containers := ["app", "db"], labels := [] }) =
      ["app_web-1", "db_web-1"] ∧
    (hostsOf (([{ name := "web-1", containers := ["app", "db"], labels := [] },
                { name := "web-2", containers := ["app"], labels := [] }] : List Pod).flatMap
        (podEvents "kubernetes" someContext "ns1"))).Nodup := by
  constructor
  · have h := (C3_host_keys "kubernetes" someContext "ns1").1
      { name := "web-1", containers := ["app", "db"], labels := [] } (by decide)
    simpa using h
  · exact (C3_host_keys "kubernetes" someContext "ns1").2
      [{ name := "web-1", containers := ["app", "db"], labels := [] },
       { name := "web-2", containers := ["app"], labels := [] }]
      (by decide) (by decide) (by decide)

/-- Variable extraction distributes over trace concatenation. -/
theorem varsOf_append (h : String) (a b : List Event) :
    varsOf h (a ++ b) = varsOf h a ++ varsOf h b :=
  List.filterMap_append a b _

/-- Variable extraction distributes over a flatMap of traces. -/
theorem varsOf_flatMap {α : Type u} (h : String) (l : List α) (f : α → List Event) :
    varsOf h (l.flatMap f) = l.flatMap fun x => varsOf h (f x) :=
  List.filterMap_flatMap l f _

/-- Group insertion sets no variable. -/
theorem varsOf_groupadd (h g c : String) : varsOf h (_groupadd g c) = [] := by
  simp [varsOf, _groupadd]

/-- The variables a container block sets on its own host key are exactly
the nine assignments of `_hostvars`, in order. -/
theorem varsOf_containerEvents_self (plugin : String) (context : Context)
    (ns pname c : String) :
    varsOf (c ++ "_" ++ pname) (containerEvents plugin context ns pname c) =
      [("ansible_host", Value.str pname),
       ("ansible_connection", Value.str plugin),
       ("ansible_user", optValue context.username),
       ("ansible_password", optValue context.token),
       ("ansible_kubernetes_port", Value.nat (context.port.getD 8443)),
       ("ansible_kubernetes_cluster", optValue context.server),
       ("ansible_kube_namespace", Value.str ns),
       ("ansible_kube_config_file", optValue context.kubernetes_config_file),
       ("ansible_kube_container", Value.str c)] := by
  simp [varsOf, containerEvents, _hostvars, _groupadd]

/-- A container block touches no variables of the host
key of another container (within the same pod, keys of distinct containers differ). -/
theorem varsOf_containerEvents_ne (plugin : String) (context : Context)
    (ns pname c c2 : String) (hne : c2 ≠ c) :
    varsOf (c ++ "_" ++ pname) (containerEvents plugin context ns pname c2) = [] := by
  have hk : ¬ (c2 ++ "_" ++ pname = c ++ "_" ++ pname) := fun hh =>
    hne (hostKey_cancel c2 c pname hh)
  simp [varsOf, containerEvents, _hostvars, _groupadd, hk]

/-- Over a duplicate-free container list containing `c`, the variables
set on the key of `c` are exactly those of the block of `c`. -/
theorem varsOf_containers (plugin : String) (context : Context) (ns pname c : String) :
    ∀ l : List String, l.Nodup → c ∈ l →
      (l.flatMap fun c2 =>
        varsOf (c ++ "_" ++ pname) (containerEvents plugin context ns pname c2)) =
      varsOf (c ++ "_" ++ pname) (containerEvents plugin context ns pname c) := by
  intro l
  induction l with
  | nil =>
    intro _ hc
    exact absurd hc (List.not_mem_nil c)
  | cons x xs ih =>
    intro hnd hc
    rw [List.flatMap_cons]
    rcases List.mem_cons.mp hc with hxc | hcxs
    · subst hxc
      have hnotin : c ∉ xs := (List.nodup_cons.mp hnd).1
      have hrest : (xs.flatMap fun c2 =>
          varsOf (c ++ "_" ++ pname) (containerEvents plugin context ns pname c2)) = [] := by
        refine List.flatMap_eq_nil_iff.mpr ?_
        intro c2 hc2
        refine varsOf_containerEvents_ne plugin context ns pname c c2 ?_
        intro he
        exact hnotin (he ▸ hc2)
      rw [hrest, List.append_nil]
    · have hxne : x ≠ c := by
        intro he
        subst he
        exact (List.nodup_cons.mp hnd).1 hcxs
      rw [varsOf_containerEvents_ne plugin context ns pname c x hxne, List.nil_append]
      exact ih (List.nodup_cons.mp hnd).2 hcxs

/-- C8: each created host receives exactly the stated variable set —
`ansible_host` is the pod name, `ansible_connection` the configured
plugin name, `ansible_user`/`ansible_password` the context username and
token or Python None when absent, `ansible_kubernetes_port` the context
port with default 8443, `ansible_kubernetes_cluster` the context server
or None, `ansible_kube_namespace` the namespace,
`ansible_kube_config_file` the context file path or None, and
`ansible_kube_container` the container name (the plugin name defaulting
to `"kubernetes"` is applied by `_populate` before the loops). -/
theorem C8_variable_set (plugin : String) (context : Context) (ns : String) (pod : Pod)
    (c : String) (hb : strIn "-build" pod.name = false)
    (hnd : pod.containers.Nodup) (hc : c ∈ pod.containers) :
    varsOf (c ++ "_" ++ pod.name) (podEvents plugin context ns pod) =
      [("ansible_host", Value.str pod.name),
       ("ansible_connection", Value.str plugin),
       ("ansible_user", optValue context.username),
       ("ansible_password", optValue context.token),
       ("ansible_kubernetes_port", Value.nat (context.port.getD 8443)),
       ("ansible_kubernetes_cluster", optValue context.server),
       ("ansible_kube_namespace", Value.str ns),
       ("ansible_kube_config_file", optValue context.kubernetes_config_file),
       ("ansible_kube_container", Value.str c)] := by
  unfold podEvents
  simp only [hb, Bool.false_eq_true, if_false]
  rw [varsOf_append, varsOf_flatMap, varsOf_flatMap]
  have h2 : (pod.labels.flatMap fun kv =>
      varsOf (c ++ "_" ++ pod.name) (_groupadd (kv.1 ++ "_" ++ kv.2) pod.name)) = [] := by
    refine List.flatMap_eq_nil_iff.mpr ?_
    intro kv _
    exact varsOf_groupadd _ _ _
  rw [varsOf_containers plugin context ns pod.name c pod.containers hnd hc, h2,
    List.append_nil, varsOf_containerEvents_self]

/-- Witness for C8 at a one-container pod under a context with no
optional fields. -/
theorem C8_witness :
    varsOf ("app" ++ "_" ++ "web-1")
        (podEvents "kubernetes" someContext "ns1"
          { name := "web-1", containers := ["app"], labels := [] }) =
      [("ansible_host", Value.str "web-1"),
       ("ansible_connection", Value.str "kubernetes"),
       ("ansible_user", Value.nil),
       ("ansible_password", Value.nil),
       ("ansible_kubernetes_port", Value.nat 8443),
       ("ansible_kubernetes_cluster", Value.nil),
       ("ansible_kube_namespace", Value.str "ns1"),
       ("ansible_kube_config_file", Value.nil),
       ("ansible_kube_container", Value.str "app")] := by
  have h := C8_variable_set "kubernetes" someContext "ns1"
    { name := "web-1", containers := ["app"], labels := [] } "app"
    (by decide) (by decide) (by decide)
  simpa [someContext, optValue] using h

/-- Unfolding of the namespace loop when listing succeeds. -/
theorem loopNamespaces_cons_ok (plugin : String) (context : Context) (a : Api)
    (ns : String) (rest : List String) (pods : List Pod)
    (hl : a.list_namespaced_pod ns = Except.ok pods) :
    loopNamespaces (some a) plugin context (ns :: rest) =
      ((pods.flatMap (podEvents plugin context ns) ++ _kube_service_group a ns) ++
         (loopNamespaces (some a) plugin context rest).1,
       (loopNamespaces (some a) plugin context rest).2) := by
  simp [loopNamespaces, hl]

/-- Unfolding of the context loop when the namespace loop raised. -/
theorem loopContexts_cons_abort (api : Option Api) (plugin : String) (context : Context)
    (rest : List Context) (e : String)
    (hr : (loopNamespaces (connectApi api context) plugin context context.namespaces).2 =
      some e) :
    loopContexts api plugin (context :: rest) =
      (connectEvents context ++
         (loopNamespaces (connectApi api context) plugin context context.namespaces).1,
       some e) := by
  simp [loopContexts, hr]

/-- Unfolding of the context loop when the namespace loop completed. -/
theorem loopContexts_cons_ok (api : Option Api) (plugin : String) (context : Context)
    (rest : List Context)
    (hr : (loopNamespaces (connectApi api context) plugin context context.namespaces).2 =
      none) :
    loopContexts api plugin (context :: rest) =
      (connectEvents context ++
         (loopNamespaces (connectApi api context) plugin context context.namespaces).1 ++
         (loopContexts (connectApi api context) plugin rest).1,
       (loopContexts (connectApi api context) plugin rest).2) := by
  simp [loopContexts, hr]

/-- The service grouper never adds a host. -/
theorem addHost_not_mem_service (a : Api) (ns h : String) :
    Event.addHost h ∉ _kube_service_group a ns := by
  unfold _kube_service_group
  cases hl : a.list_namespaced_endpoints ns with
  | error e => simp
  | ok endpoints =>
    intro hmem
    rw [List.mem_flatMap] at hmem
    obtain ⟨e, _, hm⟩ := hmem
    rcases List.mem_cons.mp hm with he | hm2
    · exact Event.noConfusion he
    · rw [List.mem_flatMap] at hm2
      obtain ⟨s, _, hm3⟩ := hm2
      rw [List.mem_flatMap] at hm3
      obtain ⟨addr, _, hm4⟩ := hm3
      cases hr : addr.target_ref with
      | none => rw [hr] at hm4; simp at hm4
      | some tr =>
        rw [hr] at hm4
        by_cases hk : strIn "Pod" tr.kind = true
        · simp [hk] at hm4
        · simp [hk] at hm4

/-- A connection report never adds a host. -/
theorem addHost_not_mem_connectEvents (context : Context) (h : String) :
    Event.addHost h ∉ connectEvents context := by
  unfold connectEvents
  cases context.connectResult with
  | ok a => simp
  | error e => simp

/-- Whenever the pod loop adds a host, the same loop iteration also adds
the host as a child of both the namespace group and the pod group. -/
theorem podEvents_addHost (plugin : String) (context : Context) (ns : String)
    (pod : Pod) (h : String)
    (hm : Event.addHost h ∈ podEvents plugin context ns pod) :
    Event.addChild ns h ∈ podEvents plugin context ns pod ∧
    Event.addChild pod.name h ∈ podEvents plugin context ns pod := by
  unfold podEvents at hm ⊢
  by_cases hb : strIn "-build" pod.name
  · simp [hb] at hm
  · simp only [hb, Bool.false_eq_true, if_false] at hm ⊢
    rcases List.mem_append.mp hm with hm1 | hm2
    · obtain ⟨c, hcmem, hcin⟩ := List.mem_flatMap.mp hm1
      have hkey : h = c ++ "_" ++ pod.name := by
        simp [containerEvents, _hostvars, _groupadd] at hcin
        exact hcin
      subst hkey
      constructor
      · refine List.mem_append_left _ (List.mem_flatMap.mpr ⟨c, hcmem, ?_⟩)
        simp [containerEvents, _hostvars, _groupadd]
      · refine List.mem_append_left _ (List.mem_flatMap.mpr ⟨c, hcmem, ?_⟩)
        simp [containerEvents, _hostvars, _groupadd]
    · exfalso
      obtain ⟨kv, _, hkin⟩ := List.mem_flatMap.mp hm2
      simp [_groupadd] at hkin

/-- Every host the namespace loop adds originates from a pod iteration
whose namespace and pod group children are in the same loop trace. -/
theorem loopNamespaces_addHost (plugin : String) (context : Context) :
    ∀ (nss : List String) (api : Option Api) (h : String),
      Event.addHost h ∈ (loopNamespaces api plugin context nss).1 →
      ∃ ns pod, Event.addHost h ∈ podEvents plugin context ns pod ∧
        Event.addChild ns h ∈ (loopNamespaces api plugin context nss).1 ∧
        Event.addChild pod.name h ∈ (loopNamespaces api plugin context nss).1 := by
  intro nss
  induction nss with
  | nil =>
    intro api h hm
    simp [loopNamespaces] at hm
  | cons ns rest ih =>
    intro api h hm
    cases api with
    | none => simp [loopNamespaces] at hm
    | some a =>
      cases hl : a.list_namespaced_pod ns with
      | error e =>
        rw [show loopNamespaces (some a) plugin context (ns :: rest) = ([], some e) from
          by simp [loopNamespaces, hl]] at hm
        simp at hm
      | ok pods =>
        rw [loopNamespaces_cons_ok plugin context a ns rest pods hl] at hm ⊢
        rcases List.mem_append.mp hm with hm12 | hmr
        · rcases List.mem_append.mp hm12 with hmp | hms
          · obtain ⟨pod, hpmem, hpin⟩ := List.mem_flatMap.mp hmp
            obtain ⟨hc1, hc2⟩ := podEvents_addHost plugin context ns pod h hpin
            refine ⟨ns, pod, hpin, ?_, ?_⟩
            · exact List.mem_append_left _
                (List.mem_append_left _ (List.mem_flatMap.mpr ⟨pod, hpmem, hc1⟩))
            · exact List.mem_append_left _
                (List.mem_append_left _ (List.mem_flatMap.mpr ⟨pod, hpmem, hc2⟩))
          · exact absurd hms (addHost_not_mem_service a ns h)
        · obtain ⟨ns2, pod2, hin, hc1, hc2⟩ := ih (some a) h hmr
          exact ⟨ns2, pod2, hin, List.mem_append_right _ hc1, List.mem_append_right _ hc2⟩

/-- Every host the context loop adds originates from a pod iteration
whose namespace and pod group children are in the same loop trace. -/
theorem loopContexts_addHost (plugin : String) :
    ∀ (ctxs : List Context) (api : Option Api) (h : String),
      Event.addHost h ∈ (loopContexts api plugin ctxs).1 →
      ∃ context ns pod, Event.addHost h ∈ podEvents plugin context ns pod ∧
        Event.addChild ns h ∈ (loopContexts api plugin ctxs).1 ∧
        Event.addChild pod.name h ∈ (loopContexts api plugin ctxs).1 := by
  intro ctxs
  induction ctxs with
  | nil =>
    intro api h hm
    simp [loopContexts] at hm
  | cons context rest ih =>
    intro api h hm
    cases hr : (loopNamespaces (connectApi api context) plugin context context.namespaces).2 with
    | some e =>
      rw [loopContexts_cons_abort api plugin context rest e hr] at hm ⊢
      rcases List.mem_append.mp hm with hmc | hmn
      · exact absurd hmc (addHost_not_mem_connectEvents context h)
      · obtain ⟨ns, pod, hin, hc1, hc2⟩ :=
          loopNamespaces_addHost plugin context context.namespaces (connectApi api context) h hmn
        exact ⟨context, ns, pod, hin,
          List.mem_append_right _ hc1, List.mem_append_right _ hc2⟩
    | none =>
      rw [loopContexts_cons_ok api plugin context rest hr] at hm ⊢
      rcases List.mem_append.mp hm with hm12 | hmr
      · rcases List.mem_append.mp hm12 with hmc | hmn
        · exact absurd hmc (addHost_not_mem_connectEvents context h)
        · obtain ⟨ns, pod, hin, hc1, hc2⟩ :=
            loopNamespaces_addHost plugin context context.namespaces (connectApi api context) h hmn
          exact ⟨context, ns, pod, hin,
            List.mem_append_left _ (List.mem_append_right _ hc1),
            List.mem_append_left _ (List.mem_append_right _ hc2)⟩
      · obtain ⟨context2, ns2, pod2, hin, hc1, hc2⟩ := ih (connectApi api context) h hmr
        exact ⟨context2, ns2, pod2, hin,
          List.mem_append_right _ hc1, List.mem_append_right _ hc2⟩

/-- Unfolding of `_populate` for a configuration without `contexts`. -/
theorem populate_noContexts (config : ConfigData) (hc : config.contexts = none) :
    _populate config = [Event.error typeErrorNoneMsg] := by
  unfold _populate
  rw [hc]

/-- Unfolding of `_populate` for a configuration with a context list. -/
theorem populate_eq (config : ConfigData) (ctxs : List Context)
    (hc : config.contexts = some ctxs) :
    _populate config =
      populateResult (loopContexts none (config.plugin.getD "kubernetes") ctxs) := by
  unfold _populate
  rw [hc]

/-- Unfolding of the final handler when no exception reached it. -/
theorem populateResult_eq_none (r : List Event × Option String) (h : r.2 = none) :
    populateResult r = r.1 := by
  simp [populateResult, h]

/-- Unfolding of the final handler when an exception reached it. -/
theorem populateResult_eq_some (r : List Event × Option String) (e : String)
    (h : r.2 = some e) :
    populateResult r = r.1 ++ [Event.error e] := by
  simp [populateResult, h]

/-- C7: every host emitted by a run originates from a (namespace, pod)
iteration, and both group memberships — namespace group over the host and
pod-name group over the host — are present in the run trace. -/
theorem C7_memberships (config : ConfigData) (h : String)
    (hh : Event.addHost h ∈ _populate config) :
    ∃ context ns pod,
      Event.addHost h ∈ podEvents (config.plugin.getD "kubernetes") context ns pod ∧
      Event.addChild ns h ∈ _populate config ∧
      Event.addChild pod.name h ∈ _populate config := by
  cases hc : config.contexts with
  | none =>
    rw [populate_noContexts config hc] at hh
    simp at hh
  | some ctxs =>
    rw [populate_eq config ctxs hc] at hh ⊢
    cases hr : (loopContexts none (config.plugin.getD "kubernetes") ctxs).2 with
    | none =>
      rw [populateResult_eq_none _ hr] at hh ⊢
      exact loopContexts_addHost (config.plugin.getD "kubernetes") ctxs none h hh
    | some e =>
      rw [populateResult_eq_some _ e hr] at hh ⊢
      rcases List.mem_append.mp hh with hm | hm2
      · obtain ⟨context, ns, pod, hin, hc1, hc2⟩ :=
          loopContexts_addHost (config.plugin.getD "kubernetes") ctxs none h hm
        exact ⟨context, ns, pod, hin,
          List.mem_append_left _ hc1, List.mem_append_left _ hc2⟩
      · simp at hm2

/-- Witness for C7 at the healthy one-context configuration. -/
theorem C7_witness :
    Event.addHost "app_web-2" ∈ _populate cfgOneHealthy ∧
    ∃ context ns pod,
      Event.addHost "app_web-2" ∈
        podEvents (cfgOneHealthy.plugin.getD "kubernetes") context ns pod ∧
      Event.addChild ns "app_web-2" ∈ _populate cfgOneHealthy ∧
      Event.addChild pod.name "app_web-2" ∈ _populate cfgOneHealthy :=
  ⟨by decide, C7_memberships cfgOneHealthy "app_web-2" (by decide)⟩

/-- Group accumulation distributes over trace concatenation. -/
theorem accGroups_append : ∀ (xs : List Event) (created : List String) (ys : List Event),
    accGroups created (xs ++ ys) = accGroups (accGroups created xs) ys := by
  intro xs
  induction xs with
  | nil =>
    intro created ys
    rfl
  | cons x xs ih =>
    intro created ys
    cases x with
    | addGroup g => exact ih (g :: created) ys
    | addChild g c => exact ih created ys
    | addHost h2 => exact ih created ys
    | setVariable a b v => exact ih created ys
    | error m => exact ih created ys

/-- Well-ordering of an appended trace splits at the accumulated
group set. -/
theorem wellOrderedFrom_append_eq :
    ∀ (xs : List Event) (created : List String) (ys : List Event),
      wellOrderedFrom created (xs ++ ys) =
        (wellOrderedFrom created xs && wellOrderedFrom (accGroups created xs) ys) := by
  intro xs
  induction xs with
  | nil =>
    intro created ys
    simp [wellOrderedFrom, accGroups]
  | cons x xs ih =>
    intro created ys
    cases x with
    | addGroup g => exact ih (g :: created) ys
    | addChild g c =>
      show (created.contains g && wellOrderedFrom created (xs ++ ys)) =
        ((created.contains g && wellOrderedFrom created xs) &&
          wellOrderedFrom (accGroups created xs) ys)
      rw [ih created ys, Bool.and_assoc]
    | addHost h2 => exact ih created ys
    | setVariable a b v => exact ih created ys
    | error m => exact ih created ys

/-- Appending a trace that is well ordered from every starting group set
preserves well-ordering. -/
theorem wo_append (xs : List Event) :
    ∀ (created : List String) (ys : List Event),
      wellOrderedFrom created xs = true →
      (∀ created2 : List String, wellOrderedFrom created2 ys = true) →
      wellOrderedFrom created (xs ++ ys) = true := by
  induction xs with
  | nil =>
    intro created ys _ hy
    exact hy created
  | cons x xs ih =>
    intro created ys hx hy
    cases x with
    | addGroup g => exact ih (g :: created) ys hx hy
    | addChild g c =>
      have h2 := Bool.and_eq_true_iff.mp hx
      exact Bool.and_eq_true_iff.mpr ⟨h2.1, ih created ys h2.2 hy⟩
    | addHost h2 => exact ih created ys hx hy
    | setVariable a b v => exact ih created ys hx hy
    | error m => exact ih created ys hx hy

/-- The host-variable block carries no group operations, so it is well
ordered from any state. -/
theorem wo_hostvars (ih0 ns pn cn : String) (context : Context) (plugin : String)
    (created : List String) :
    wellOrderedFrom created (_hostvars ih0 ns pn cn context plugin) = true := rfl

/-- The group helper creates the group immediately before adding the
child, so it is well ordered from any state. -/
theorem wo_groupadd (g c : String) (created : List String) :
    wellOrderedFrom created (_groupadd g c) = true := by
  have hg : (g :: created).contains g = true :=
    List.elem_eq_true_of_mem (List.mem_cons_self g created)
  show ((g :: created).contains g && wellOrderedFrom (g :: created) []) = true
  rw [hg]
  rfl

/-- One container block is well ordered from any state. -/
theorem wo_containerEvents (plugin : String) (context : Context) (ns pname c : String)
    (created : List String) :
    wellOrderedFrom created (containerEvents plugin context ns pname c) = true := by
  unfold containerEvents
  refine wo_append _ _ _ ?_ (fun c2 => wo_groupadd _ _ c2)
  exact wo_append _ _ _ (wo_hostvars _ _ _ _ context plugin created)
    (fun c2 => wo_groupadd _ _ c2)

/-- A flatMap of blocks each well ordered from any state is well ordered
from any state. -/
theorem wo_flatMap {α : Type u} (f : α → List Event)
    (hf : ∀ (x : α) (created : List String), wellOrderedFrom created (f x) = true) :
    ∀ (l : List α) (created : List String),
      wellOrderedFrom created (l.flatMap f) = true := by
  intro l
  induction l with
  | nil =>
    intro created
    rfl
  | cons x xs ih =>
    intro created
    rw [List.flatMap_cons]
    exact wo_append _ _ _ (hf x created) (fun c2 => ih c2)

/-- A pod iteration is well ordered from any state. -/
theorem wo_podEvents (plugin : String) (context : Context) (ns : String) (pod : Pod)
    (created : List String) :
    wellOrderedFrom created (podEvents plugin context ns pod) = true := by
  unfold podEvents
  by_cases hb : strIn "-build" pod.name = true
  · rw [if_pos hb]
    rfl
  · rw [if_neg hb]
    refine wo_append _ _ _ ?_ ?_
    · exact wo_flatMap _
        (fun c created2 => wo_containerEvents plugin context ns pod.name c created2)
        pod.containers created
    · intro created2
      exact wo_flatMap _ (fun kv created3 => wo_groupadd _ _ created3) pod.labels created2

/-- The address loop of one endpoint only adds children of the endpoint
group, so it is well ordered whenever that group was created. -/
theorem wo_addressChildren (g : String) :
    ∀ (addrs : List Address) (created : List String),
      created.contains g = true →
      wellOrderedFrom created (addrs.flatMap fun addr =>
        match addr.target_ref with
        | none => []
        | some tr =>
          if strIn "Pod" tr.kind then [Event.addChild g tr.name] else []) = true := by
  intro addrs
  induction addrs with
  | nil =>
    intro created _
    rfl
  | cons addr rest ih =>
    intro created hg
    rw [List.flatMap_cons]
    cases hr : addr.target_ref with
    | none =>
      simp only [hr]
      rw [List.nil_append]
      exact ih created hg
    | some tr =>
      simp only [hr]
      by_cases hk : strIn "Pod" tr.kind = true
      · rw [if_pos hk, List.singleton_append]
        exact Bool.and_eq_true_iff.mpr ⟨hg, ih created hg⟩
      · rw [if_neg hk, List.nil_append]
        exact ih created hg

/-- The address loop of one endpoint creates no groups. -/
theorem accGroups_addressChildren (g : String) :
    ∀ (addrs : List Address) (created : List String),
      accGroups created (addrs.flatMap fun addr =>
        match addr.target_ref with
        | none => []
        | some tr =>
          if strIn "Pod" tr.kind then [Event.addChild g tr.name] else []) = created := by
  intro addrs
  induction addrs with
  | nil =>
    intro created
    rfl
  | cons addr rest ih =>
    intro created
    rw [List.flatMap_cons]
    cases hr : addr.target_ref with
    | none =>
      simp only [hr]
      rw [List.nil_append]
      exact ih created
    | some tr =>
      simp only [hr]
      by_cases hk : strIn "Pod" tr.kind = true
      · rw [if_pos hk, List.singleton_append]
        exact ih created
      · rw [if_neg hk, List.nil_append]
        exact ih created

/-- The subset loop of one endpoint is well ordered whenever the
endpoint group was created. -/
theorem wo_subsetChildren (g : String) :
    ∀ (subsets : List Subset) (created : List String),
      created.contains g = true →
      wellOrderedFrom created (subsets.flatMap fun s =>
        s.addresses.flatMap fun addr =>
          match addr.target_ref with
          | none => []
          | some tr =>
            if strIn "Pod" tr.kind then [Event.addChild g tr.name] else []) = true := by
  intro subsets
  induction subsets with
  | nil =>
    intro created _
    rfl
  | cons s rest ih =>
    intro created hg
    rw [List.flatMap_cons, wellOrderedFrom_append_eq, accGroups_addressChildren g s.addresses]
    exact Bool.and_eq_true_iff.mpr ⟨wo_addressChildren g s.addresses created hg, ih created hg⟩

/-- One endpoint block creates its group before adding any of its
children, so it is well ordered from any state. -/
theorem wo_endpointEvents (e : Endpoint) (created : List String) :
    wellOrderedFrom created (Event.addGroup e.name ::
      e.subsets.flatMap fun s =>
        s.addresses.flatMap fun addr =>
          match addr.target_ref with
          | none => []
          | some tr =>
            if strIn "Pod" tr.kind then [Event.addChild e.name tr.name] else []) = true :=
  wo_subsetChildren e.name e.subsets (e.name :: created)
    (List.elem_eq_true_of_mem (List.mem_cons_self e.name created))

/-- The service grouper is well ordered from any state. -/
theorem wo_service (a : Api) (ns : String) (created : List String) :
    wellOrderedFrom created (_kube_service_group a ns) = true := by
  unfold _kube_service_group
  cases hl : a.list_namespaced_endpoints ns with
  | error e => rfl
  | ok endpoints =>
    exact wo_flatMap _ (fun e created2 => wo_endpointEvents e created2) endpoints created

/-- A connection report is well ordered from any state. -/
theorem wo_connectEvents (context : Context) (created : List String) :
    wellOrderedFrom created (connectEvents context) = true := by
  unfold connectEvents
  cases context.connectResult with
  | ok a => rfl
  | error e => rfl

/-- The namespace loop is well ordered from any state. -/
theorem wo_loopNamespaces (plugin : String) (context : Context) :
    ∀ (nss : List String) (api : Option Api) (created : List String),
      wellOrderedFrom created (loopNamespaces api plugin context nss).1 = true := by
  intro nss
  induction nss with
  | nil =>
    intro api created
    rfl
  | cons ns rest ih =>
    intro api created
    cases api with
    | none => rfl
    | some a =>
      cases hl : a.list_namespaced_pod ns with
      | error e =>
        rw [show loopNamespaces (some a) plugin context (ns :: rest) = ([], some e) from by
          simp [loopNamespaces, hl]]
        rfl
      | ok pods =>
        rw [loopNamespaces_cons_ok plugin context a ns rest pods hl]
        refine wo_append _ _ _ ?_ (fun created2 => ih (some a) created2)
        refine wo_append _ _ _ ?_ (fun created2 => wo_service a ns created2)
        exact wo_flatMap _
          (fun pod created2 => wo_podEvents plugin context ns pod created2) pods created

/-- The context loop is well ordered from any state. -/
theorem wo_loopContexts (plugin : String) :
    ∀ (ctxs : List Context) (api : Option Api) (created : List String),
      wellOrderedFrom created (loopContexts api plugin ctxs).1 = true := by
  intro ctxs
  induction ctxs with
  | nil =>
    intro api created
    rfl
  | cons context rest ih =>
    intro api created
    cases hr : (loopNamespaces (connectApi api context) plugin context context.namespaces).2 with
    | some e =>
      rw [loopContexts_cons_abort api plugin context rest e hr]
      exact wo_append _ _ _ (wo_connectEvents context created)
        (fun created2 =>
          wo_loopNamespaces plugin context context.namespaces (connectApi api context) created2)
    | none =>
      rw [loopContexts_cons_ok api plugin context rest hr]
      refine wo_append _ _ _ ?_ (fun created2 => ih (connectApi api context) created2)
      exact wo_append _ _ _ (wo_connectEvents context created)
        (fun created2 =>
          wo_loopNamespaces plugin context context.namespaces (connectApi api context) created2)

/-- C10: in every run, each child addition the sink receives is preceded
in the trace by a group creation for the same group name — namespace,
pod and label groups go through `_groupadd` which creates the group
immediately before the child, and each service group is created before
its address loop. -/
theorem C10_group_created_before_child (config : ConfigData) :
    wellOrdered (_populate config) = true := by
  unfold wellOrdered
  cases hc : config.contexts with
  | none =>
    rw [populate_noContexts config hc]
    rfl
  | some ctxs =>
    rw [populate_eq config ctxs hc]
    cases hr : (loopContexts none (config.plugin.getD "kubernetes") ctxs).2 with
    | none =>
      rw [populateResult_eq_none _ hr]
      exact wo_loopContexts _ ctxs none []
    | some e =>
      rw [populateResult_eq_some _ e hr]
      refine wo_append _ _ _ (wo_loopContexts _ ctxs none []) ?_
      intro created2
      rfl

/-- Witness for C9 at the inline-credentials context `ctxInline`. -/
theorem C9_witness :
    connectAction ctxInline =
      ConnectAction.loadSynthesized
        { current_context := "ns1/k8s.example.com:6443/admin",
          clusters := [{ cluster := { insecure_skip_tls_verify := "true",
                                      server := "https://k8s.example.com:6443" },
                         name := "k8s.example.com:6443" }],
          contexts := [{ context := { cluster := "k8s.example.com:6443",
                                      «namespace» := "ns1",
                                      user := "admin/k8s.example.com:6443" },
                         name := "ns1/k8s.example.com:6443/admin" }],
          users := [{ name := "admin/k8s.example.com:6443",
                      user := { token := some "sekrit" } }] }
        "ns1/k8s.example.com:6443/admin" := by
  have h := (C9_resolution_order ctxInline "ns1" [] rfl).2.2 rfl rfl
  simpa [ctxInline, pyFormatOptStr, pyFormatOptNat] using h

end Kubernetes
